import Mathlib

/-!
Verification of the password-strength advisor `VerificadorDeSenhas.py`.

The development shallowly embeds the two functions the specification
documents:

* `verificar_forca_senha` (scorer, source lines 13-71): pure function from
  a password string to a strength-level string and an ordered list of
  suggestion strings.
* `verificar_vazamento_pwned` (breach check, source lines 74-107): computes
  the uppercase SHA-1 hex digest of the UTF-8 encoded password, splits it
  into a 5-character prefix and the remaining suffix, and scans the lines
  of the HTTP response body for a `SUFFIX:COUNT` pair matching the suffix.
  The HTTP exchange is modelled as an explicit input (`HttpOutcome`); a
  Python exception that escapes the function is modelled as `Except.error`.

Strings are sequences of characters, as in Python, with `String.length`
counting characters like Python `len`. The classes `[a-z]`, `[A-Z]`,
`[0-9]` are literal codepoint ranges; the Unicode-aware `[\W_]`, the line
boundaries of `str.splitlines()` and the decimal digits and whitespace of
`int()` are embedded through the Unicode tables of the Python runtime,
extracted below as codepoint ranges.
-/

set_option maxRecDepth 100000

/-- Source line 36: regex `[a-z]` matches an ASCII lowercase letter. -/
def ehMinuscula (c : Char) : Bool := decide ('a' ≤ c) && decide (c ≤ 'z')

/-- Source line 42: regex `[A-Z]` matches an ASCII uppercase letter. -/
def ehMaiuscula (c : Char) : Bool := decide ('A' ≤ c) && decide (c ≤ 'Z')

/-- Source line 48: regex `[0-9]` matches an ASCII digit. -/
def ehDigito (c : Char) : Bool := decide ('0' ≤ c) && decide (c ≤ '9')

/-- The codepoint ranges on which Python's `str.isalnum()` holds
(`Py_UNICODE_ISALNUM`: alphabetic, decimal, digit or numeric), read off
the Unicode database of the CPython runtime. Python's regex word class
`\w` matches exactly these characters plus the underscore. -/
def tabelaAlnum : List (Nat × Nat) := [
  (48, 57), (65, 90), (97, 122), (170, 170), (178, 179), (181, 181),
  (185, 186), (188, 190), (192, 214), (216, 246), (248, 705), (710, 721),
  (736, 740), (748, 748), (750, 750), (880, 884), (886, 887), (890, 893),
  (895, 895), (902, 902), (904, 906), (908, 908), (910, 929), (931, 1013),
  (1015, 1153), (1162, 1327), (1329, 1366), (1369, 1369), (1376, 1416), (1488, 1514),
  (1519, 1522), (1568, 1610), (1632, 1641), (1646, 1647), (1649, 1747), (1749, 1749),
  (1765, 1766), (1774, 1788), (1791, 1791), (1808, 1808), (1810, 1839), (1869, 1957),
  (1969, 1969), (1984, 2026), (2036, 2037), (2042, 2042), (2048, 2069), (2074, 2074),
  (2084, 2084), (2088, 2088), (2112, 2136), (2144, 2154), (2160, 2183), (2185, 2190),
  (2208, 2249), (2308, 2361), (2365, 2365), (2384, 2384), (2392, 2401), (2406, 2415),
  (2417, 2432), (2437, 2444), (2447, 2448), (2451, 2472), (2474, 2480), (2482, 2482),
  (2486, 2489), (2493, 2493), (2510, 2510), (2524, 2525), (2527, 2529), (2534, 2545),
  (2548, 2553), (2556, 2556), (2565, 2570), (2575, 2576), (2579, 2600), (2602, 2608),
  (2610, 2611), (2613, 2614), (2616, 2617), (2649, 2652), (2654, 2654), (2662, 2671),
  (2674, 2676), (2693, 2701), (2703, 2705), (2707, 2728), (2730, 2736), (2738, 2739),
  (2741, 2745), (2749, 2749), (2768, 2768), (2784, 2785), (2790, 2799), (2809, 2809),
  (2821, 2828), (2831, 2832), (2835, 2856), (2858, 2864), (2866, 2867), (2869, 2873),
  (2877, 2877), (2908, 2909), (2911, 2913), (2918, 2927), (2929, 2935), (2947, 2947),
  (2949, 2954), (2958, 2960), (2962, 2965), (2969, 2970), (2972, 2972), (2974, 2975),
  (2979, 2980), (2984, 2986), (2990, 3001), (3024, 3024), (3046, 3058), (3077, 3084),
  (3086, 3088), (3090, 3112), (3114, 3129), (3133, 3133), (3160, 3162), (3165, 3165),
  (3168, 3169), (3174, 3183), (3192, 3198), (3200, 3200), (3205, 3212), (3214, 3216),
  (3218, 3240), (3242, 3251), (3253, 3257), (3261, 3261), (3293, 3294), (3296, 3297),
  (3302, 3311), (3313, 3314), (3332, 3340), (3342, 3344), (3346, 3386), (3389, 3389),
  (3406, 3406), (3412, 3414), (3416, 3425), (3430, 3448), (3450, 3455), (3461, 3478),
  (3482, 3505), (3507, 3515), (3517, 3517), (3520, 3526), (3558, 3567), (3585, 3632),
  (3634, 3635), (3648, 3654), (3664, 3673), (3713, 3714), (3716, 3716), (3718, 3722),
  (3724, 3747), (3749, 3749), (3751, 3760), (3762, 3763), (3773, 3773), (3776, 3780),
  (3782, 3782), (3792, 3801), (3804, 3807), (3840, 3840), (3872, 3891), (3904, 3911),
  (3913, 3948), (3976, 3980), (4096, 4138), (4159, 4169), (4176, 4181), (4186, 4189),
  (4193, 4193), (4197, 4198), (4206, 4208), (4213, 4225), (4238, 4238), (4240, 4249),
  (4256, 4293), (4295, 4295), (4301, 4301), (4304, 4346), (4348, 4680), (4682, 4685),
  (4688, 4694), (4696, 4696), (4698, 4701), (4704, 4744), (4746, 4749), (4752, 4784),
  (4786, 4789), (4792, 4798), (4800, 4800), (4802, 4805), (4808, 4822), (4824, 4880),
  (4882, 4885), (4888, 4954), (4969, 4988), (4992, 5007), (5024, 5109), (5112, 5117),
  (5121, 5740), (5743, 5759), (5761, 5786), (5792, 5866), (5870, 5880), (5888, 5905),
  (5919, 5937), (5952, 5969), (5984, 5996), (5998, 6000), (6016, 6067), (6103, 6103),
  (6108, 6108), (6112, 6121), (6128, 6137), (6160, 6169), (6176, 6264), (6272, 6276),
  (6279, 6312), (6314, 6314), (6320, 6389), (6400, 6430), (6470, 6509), (6512, 6516),
  (6528, 6571), (6576, 6601), (6608, 6618), (6656, 6678), (6688, 6740), (6784, 6793),
  (6800, 6809), (6823, 6823), (6917, 6963), (6981, 6988), (6992, 7001), (7043, 7072),
  (7086, 7141), (7168, 7203), (7232, 7241), (7245, 7293), (7296, 7304), (7312, 7354),
  (7357, 7359), (7401, 7404), (7406, 7411), (7413, 7414), (7418, 7418), (7424, 7615),
  (7680, 7957), (7960, 7965), (7968, 8005), (8008, 8013), (8016, 8023), (8025, 8025),
  (8027, 8027), (8029, 8029), (8031, 8061), (8064, 8116), (8118, 8124), (8126, 8126),
  (8130, 8132), (8134, 8140), (8144, 8147), (8150, 8155), (8160, 8172), (8178, 8180),
  (8182, 8188), (8304, 8305), (8308, 8313), (8319, 8329), (8336, 8348), (8450, 8450),
  (8455, 8455), (8458, 8467), (8469, 8469), (8473, 8477), (8484, 8484), (8486, 8486),
  (8488, 8488), (8490, 8493), (8495, 8505), (8508, 8511), (8517, 8521), (8526, 8526),
  (8528, 8585), (9312, 9371), (9450, 9471), (10102, 10131), (11264, 11492), (11499, 11502),
  (11506, 11507), (11517, 11517), (11520, 11557), (11559, 11559), (11565, 11565), (11568, 11623),
  (11631, 11631), (11648, 11670), (11680, 11686), (11688, 11694), (11696, 11702), (11704, 11710),
  (11712, 11718), (11720, 11726), (11728, 11734), (11736, 11742), (11823, 11823), (12293, 12295),
  (12321, 12329), (12337, 12341), (12344, 12348), (12353, 12438), (12445, 12447), (12449, 12538),
  (12540, 12543), (12549, 12591), (12593, 12686), (12690, 12693), (12704, 12735), (12784, 12799),
  (12832, 12841), (12872, 12879), (12881, 12895), (12928, 12937), (12977, 12991), (13312, 19903),
  (19968, 42124), (42192, 42237), (42240, 42508), (42512, 42539), (42560, 42606), (42623, 42653),
  (42656, 42735), (42775, 42783), (42786, 42888), (42891, 42954), (42960, 42961), (42963, 42963),
  (42965, 42969), (42994, 43009), (43011, 43013), (43015, 43018), (43020, 43042), (43056, 43061),
  (43072, 43123), (43138, 43187), (43216, 43225), (43250, 43255), (43259, 43259), (43261, 43262),
  (43264, 43301), (43312, 43334), (43360, 43388), (43396, 43442), (43471, 43481), (43488, 43492),
  (43494, 43518), (43520, 43560), (43584, 43586), (43588, 43595), (43600, 43609), (43616, 43638),
  (43642, 43642), (43646, 43695), (43697, 43697), (43701, 43702), (43705, 43709), (43712, 43712),
  (43714, 43714), (43739, 43741), (43744, 43754), (43762, 43764), (43777, 43782), (43785, 43790),
  (43793, 43798), (43808, 43814), (43816, 43822), (43824, 43866), (43868, 43881), (43888, 44002),
  (44016, 44025), (44032, 55203), (55216, 55238), (55243, 55291), (63744, 64109), (64112, 64217),
  (64256, 64262), (64275, 64279), (64285, 64285), (64287, 64296), (64298, 64310), (64312, 64316),
  (64318, 64318), (64320, 64321), (64323, 64324), (64326, 64433), (64467, 64829), (64848, 64911),
  (64914, 64967), (65008, 65019), (65136, 65140), (65142, 65276), (65296, 65305), (65313, 65338),
  (65345, 65370), (65382, 65470), (65474, 65479), (65482, 65487), (65490, 65495), (65498, 65500),
  (65536, 65547), (65549, 65574), (65576, 65594), (65596, 65597), (65599, 65613), (65616, 65629),
  (65664, 65786), (65799, 65843), (65856, 65912), (65930, 65931), (66176, 66204), (66208, 66256),
  (66273, 66299), (66304, 66339), (66349, 66378), (66384, 66421), (66432, 66461), (66464, 66499),
  (66504, 66511), (66513, 66517), (66560, 66717), (66720, 66729), (66736, 66771), (66776, 66811),
  (66816, 66855), (66864, 66915), (66928, 66938), (66940, 66954), (66956, 66962), (66964, 66965),
  (66967, 66977), (66979, 66993), (66995, 67001), (67003, 67004), (67072, 67382), (67392, 67413),
  (67424, 67431), (67456, 67461), (67463, 67504), (67506, 67514), (67584, 67589), (67592, 67592),
  (67594, 67637), (67639, 67640), (67644, 67644), (67647, 67669), (67672, 67702), (67705, 67742),
  (67751, 67759), (67808, 67826), (67828, 67829), (67835, 67867), (67872, 67897), (67968, 68023),
  (68028, 68047), (68050, 68096), (68112, 68115), (68117, 68119), (68121, 68149), (68160, 68168),
  (68192, 68222), (68224, 68255), (68288, 68295), (68297, 68324), (68331, 68335), (68352, 68405),
  (68416, 68437), (68440, 68466), (68472, 68497), (68521, 68527), (68608, 68680), (68736, 68786),
  (68800, 68850), (68858, 68899), (68912, 68921), (69216, 69246), (69248, 69289), (69296, 69297),
  (69376, 69415), (69424, 69445), (69457, 69460), (69488, 69505), (69552, 69579), (69600, 69622),
  (69635, 69687), (69714, 69743), (69745, 69746), (69749, 69749), (69763, 69807), (69840, 69864),
  (69872, 69881), (69891, 69926), (69942, 69951), (69956, 69956), (69959, 69959), (69968, 70002),
  (70006, 70006), (70019, 70066), (70081, 70084), (70096, 70106), (70108, 70108), (70113, 70132),
  (70144, 70161), (70163, 70187), (70272, 70278), (70280, 70280), (70282, 70285), (70287, 70301),
  (70303, 70312), (70320, 70366), (70384, 70393), (70405, 70412), (70415, 70416), (70419, 70440),
  (70442, 70448), (70450, 70451), (70453, 70457), (70461, 70461), (70480, 70480), (70493, 70497),
  (70656, 70708), (70727, 70730), (70736, 70745), (70751, 70753), (70784, 70831), (70852, 70853),
  (70855, 70855), (70864, 70873), (71040, 71086), (71128, 71131), (71168, 71215), (71236, 71236),
  (71248, 71257), (71296, 71338), (71352, 71352), (71360, 71369), (71424, 71450), (71472, 71483),
  (71488, 71494), (71680, 71723), (71840, 71922), (71935, 71942), (71945, 71945), (71948, 71955),
  (71957, 71958), (71960, 71983), (71999, 71999), (72001, 72001), (72016, 72025), (72096, 72103),
  (72106, 72144), (72161, 72161), (72163, 72163), (72192, 72192), (72203, 72242), (72250, 72250),
  (72272, 72272), (72284, 72329), (72349, 72349), (72368, 72440), (72704, 72712), (72714, 72750),
  (72768, 72768), (72784, 72812), (72818, 72847), (72960, 72966), (72968, 72969), (72971, 73008),
  (73030, 73030), (73040, 73049), (73056, 73061), (73063, 73064), (73066, 73097), (73112, 73112),
  (73120, 73129), (73440, 73458), (73648, 73648), (73664, 73684), (73728, 74649), (74752, 74862),
  (74880, 75075), (77712, 77808), (77824, 78894), (82944, 83526), (92160, 92728), (92736, 92766),
  (92768, 92777), (92784, 92862), (92864, 92873), (92880, 92909), (92928, 92975), (92992, 92995),
  (93008, 93017), (93019, 93025), (93027, 93047), (93053, 93071), (93760, 93846), (93952, 94026),
  (94032, 94032), (94099, 94111), (94176, 94177), (94179, 94179), (94208, 100343), (100352, 101589),
  (101632, 101640), (110576, 110579), (110581, 110587), (110589, 110590), (110592, 110882), (110928, 110930),
  (110948, 110951), (110960, 111355), (113664, 113770), (113776, 113788), (113792, 113800), (113808, 113817),
  (119520, 119539), (119648, 119672), (119808, 119892), (119894, 119964), (119966, 119967), (119970, 119970),
  (119973, 119974), (119977, 119980), (119982, 119993), (119995, 119995), (119997, 120003), (120005, 120069),
  (120071, 120074), (120077, 120084), (120086, 120092), (120094, 120121), (120123, 120126), (120128, 120132),
  (120134, 120134), (120138, 120144), (120146, 120485), (120488, 120512), (120514, 120538), (120540, 120570),
  (120572, 120596), (120598, 120628), (120630, 120654), (120656, 120686), (120688, 120712), (120714, 120744),
  (120746, 120770), (120772, 120779), (120782, 120831), (122624, 122654), (123136, 123180), (123191, 123197),
  (123200, 123209), (123214, 123214), (123536, 123565), (123584, 123627), (123632, 123641), (124896, 124902),
  (124904, 124907), (124909, 124910), (124912, 124926), (124928, 125124), (125127, 125135), (125184, 125251),
  (125259, 125259), (125264, 125273), (126065, 126123), (126125, 126127), (126129, 126132), (126209, 126253),
  (126255, 126269), (126464, 126467), (126469, 126495), (126497, 126498), (126500, 126500), (126503, 126503),
  (126505, 126514), (126516, 126519), (126521, 126521), (126523, 126523), (126530, 126530), (126535, 126535),
  (126537, 126537), (126539, 126539), (126541, 126543), (126545, 126546), (126548, 126548), (126551, 126551),
  (126553, 126553), (126555, 126555), (126557, 126557), (126559, 126559), (126561, 126562), (126564, 126564),
  (126567, 126570), (126572, 126578), (126580, 126583), (126585, 126588), (126590, 126590), (126592, 126601),
  (126603, 126619), (126625, 126627), (126629, 126633), (126635, 126651), (127232, 127244), (130032, 130041),
  (131072, 173791), (173824, 177976), (177984, 178205), (178208, 183969), (183984, 191456), (194560, 195101),
  (196608, 201546)]

/-- Whether `c` is alphanumeric to Python (`str.isalnum()`). -/
def pyIsAlnum (c : Char) : Bool :=
  tabelaAlnum.any (fun p => decide (p.1 ≤ c.toNat) && decide (c.toNat ≤ p.2))

/-- Source line 55: regex `[\W_]` — matches `c` iff `c` is not a word
character (`\w`, i.e. alphanumeric or underscore) or is an underscore,
which over all of Unicode is exactly: `c` is not alphanumeric. -/
def ehEspecial (c : Char) : Bool := !(pyIsAlnum c)

/-- Whether `re.search(r'[a-z]', senha)` succeeds (source line 36). -/
def temMinuscula (senha : String) : Bool := senha.data.any ehMinuscula

/-- Whether `re.search(r'[A-Z]', senha)` succeeds (source line 42). -/
def temMaiuscula (senha : String) : Bool := senha.data.any ehMaiuscula

/-- Whether `re.search(r'[0-9]', senha)` succeeds (source line 48). -/
def temNumero (senha : String) : Bool := senha.data.any ehDigito

/-- Whether `re.search(r'[\W_]', senha)` succeeds (source line 55). -/
def temEspecial (senha : String) : Bool := senha.data.any ehEspecial

/-- The accumulated `pontuacao` of `verificar_forca_senha`
(source lines 18-56), written as the sum of the five contributions the
straight-line code adds in order. -/
def pontuacao (senha : String) : Int :=
  (if senha.length < 8 then -5 else if senha.length < 12 then 1 else 3)
  + (if temMinuscula senha then 1 else 0)
  + (if temMaiuscula senha then 1 else 0)
  + (if temNumero senha then 1 else 0)
  + (if temEspecial senha then 2 else 0)

/-- The accumulated `sugestoes` list of `verificar_forca_senha`
(source lines 19-58): each failed check appends its message, in the fixed
order the code performs the checks. -/
def sugestoes (senha : String) : List String :=
  (if senha.length < 8 then ["A senha deve ter pelo menos 8 caracteres."]
   else if senha.length < 12 then ["Considere usar uma senha com 12 ou mais caracteres."]
   else [])
  ++ (if temMinuscula senha then [] else ["Inclua pelo menos uma letra minúscula (a-z)."])
  ++ (if temMaiuscula senha then [] else ["Inclua pelo menos uma letra maiúscula (A-Z)."])
  ++ (if temNumero senha then [] else ["Inclua pelo menos um número (0-9)."])
  ++ (if temEspecial senha then [] else ["Inclua pelo menos um caractere especial (ex: !@#$)."])

/-- Level thresholds of `verificar_forca_senha` (source lines 62-69). -/
def nivel_senha (p : Int) : String :=
  if p < 2 then "Muito Fraca"
  else if p < 4 then "Fraca"
  else if p < 6 then "Média"
  else "Forte"

/-- Function `verificar_forca_senha` (source lines 13-71): returns the level for the
accumulated score together with the accumulated suggestions. -/
def verificar_forca_senha (senha : String) : String × List String :=
  (nivel_senha (pontuacao senha), sugestoes senha)

/-! ## SHA-1 (the digest `hashlib.sha1` computes, source line 81)

Bytes and 32-bit words are `Nat`s reduced modulo `2 ^ 32` where overflow
matters. -/

/-- The modulus `2 ^ 32`. -/
def M32 : Nat := 4294967296

/-- Left rotation of a 32-bit word. -/
def rotl (n x : Nat) : Nat := ((x <<< n) ||| (x >>> (32 - n))) % M32

/-- SHA-1 round constants. -/
def sha1K (t : Nat) : Nat :=
  if t < 20 then 1518500249
  else if t < 40 then 1859775393
  else if t < 60 then 2400959708
  else 3395469782

/-- SHA-1 round functions (Ch, Parity, Maj, Parity). -/
def sha1F (t b c d : Nat) : Nat :=
  if t < 20 then (b &&& c) ||| ((b ^^^ 4294967295) &&& d)
  else if t < 40 then b ^^^ c ^^^ d
  else if t < 60 then (b &&& c) ||| (b &&& d) ||| (c &&& d)
  else b ^^^ c ^^^ d

/-- The five-word SHA-1 state. -/
structure Sha1St where
  a : Nat
  b : Nat
  c : Nat
  d : Nat
  e : Nat
deriving DecidableEq

/-- Extend the 16-word message schedule to 80 words:
`w[i] = rotl1 (w[i-3] xor w[i-8] xor w[i-14] xor w[i-16])`. -/
def extendW : Nat → List Nat → List Nat
  | 0, w => w
  | n + 1, w =>
      let i := w.length
      extendW n
        (w ++ [rotl 1 ((w.getD (i - 3) 0) ^^^ (w.getD (i - 8) 0) ^^^
                       (w.getD (i - 14) 0) ^^^ (w.getD (i - 16) 0))])

/-- One SHA-1 compression round. -/
def sha1Round (wt t : Nat) (s : Sha1St) : Sha1St :=
  { a := (rotl 5 s.a + sha1F t s.b s.c s.d + s.e + sha1K t + wt) % M32
    b := s.a
    c := rotl 30 s.b
    d := s.c
    e := s.d }

/-- Run the 80 compression rounds over the message schedule. -/
def sha1Rounds : List Nat → Nat → Sha1St → Sha1St
  | [], _, s => s
  | wt :: ws, t, s => sha1Rounds ws (t + 1) (sha1Round wt t s)

/-- Big-endian 32-bit word from four bytes of a chunk. -/
def beWord (bytes : List Nat) (off : Nat) : Nat :=
  ((bytes.getD off 0) <<< 24) ||| ((bytes.getD (off + 1) 0) <<< 16) |||
  ((bytes.getD (off + 2) 0) <<< 8) ||| (bytes.getD (off + 3) 0)

/-- Process one 64-byte chunk. -/
def processChunk (chunk : List Nat) (h : Sha1St) : Sha1St :=
  let w16 := (List.range 16).map (fun i => beWord chunk (4 * i))
  let ws := extendW 64 w16
  let s := sha1Rounds ws 0 h
  { a := (h.a + s.a) % M32
    b := (h.b + s.b) % M32
    c := (h.c + s.c) % M32
    d := (h.d + s.d) % M32
    e := (h.e + s.e) % M32 }

/-- Split a byte list into 64-byte chunks; `fuel` bounds the recursion and
any `fuel ≥` the number of chunks gives the same result. -/
def toChunks : Nat → List Nat → List (List Nat)
  | 0, _ => []
  | _, [] => []
  | fuel + 1, bytes => bytes.take 64 :: toChunks fuel (bytes.drop 64)

/-- SHA-1 padding: `0x80`, zeros to 56 mod 64, then the 64-bit big-endian
bit length. -/
def sha1Pad (msg : List Nat) : List Nat :=
  let len := msg.length
  let z := (119 - len % 64) % 64
  msg ++ [128] ++ List.replicate z 0
      ++ (List.range 8).map (fun i => ((len * 8) >>> (8 * (7 - i))) % 256)

/-- The SHA-1 initial state. -/
def sha1Init : Sha1St := ⟨1732584193, 4023233417, 2562383102, 271733878, 3285377520⟩

/-- SHA-1 of a byte list, as the five-word final state. -/
def sha1 (msg : List Nat) : Sha1St :=
  let padded := sha1Pad msg
  (toChunks padded.length padded).foldl (fun h ch => processChunk ch h) sha1Init

/-- Uppercase hexadecimal digit for a nibble. -/
def hexDigitUpper (n : Nat) : Char :=
  if n < 10 then Char.ofNat (48 + n) else Char.ofNat (55 + n)

/-- A 32-bit word as 8 uppercase hexadecimal characters. -/
def wordToHex (w : Nat) : List Char :=
  (List.range 8).map (fun i => hexDigitUpper ((w >>> (4 * (7 - i))) % 16))

/-- The full uppercase-hex SHA-1 digest of a byte list
(`.hexdigest().upper()`, source line 81). -/
def sha1HexUpper (msg : List Nat) : List Char :=
  let h := sha1 msg
  wordToHex h.a ++ wordToHex h.b ++ wordToHex h.c ++ wordToHex h.d ++ wordToHex h.e

/-- UTF-8 encoding of one character (`senha.encode('utf-8')`). -/
def utf8EncodeChar (c : Char) : List Nat :=
  let n := c.toNat
  if n < 128 then [n]
  else if n < 2048 then [192 + n / 64, 128 + n % 64]
  else if n < 65536 then [224 + n / 4096, 128 + (n / 64) % 64, 128 + n % 64]
  else [240 + n / 262144, 128 + (n / 4096) % 64, 128 + (n / 64) % 64, 128 + n % 64]

/-- UTF-8 encoding of a string, as a byte list. -/
def utf8Encode (s : String) : List Nat := (s.data.map utf8EncodeChar).flatten

/-- Digest `sha1_senha` (source line 81): uppercase hex SHA-1 digest of the
UTF-8-encoded password, as a character list (Python slices strings, so the
digest is kept as its character sequence). -/
def sha1_senha (senha : String) : List Char := sha1HexUpper (utf8Encode senha)

/-- Slice `prefixo_hash = sha1_senha[:5]` (source line 82). -/
def prefixo_hash (senha : String) : List Char := (sha1_senha senha).take 5

/-- Slice `sufixo_hash = sha1_senha[5:]` (source line 83). -/
def sufixo_hash (senha : String) : List Char := (sha1_senha senha).drop 5

/-! ## Breach check (`verificar_vazamento_pwned`, source lines 74-107)

The one HTTP exchange is an explicit input: either a transport failure
(`requests.RequestException`, which the function catches) or a response
with a status code and a text body. An exception the function does not
catch — Python raises `ValueError` when a response line does not unpack
into exactly two fields or when `int()` fails on the count of a matching
line — is modelled as `Except.error`. -/

/-- An uncaught Python exception escaping `verificar_vazamento_pwned`. -/
inductive PyErr where
  | valueError
deriving DecidableEq

/-- The outcome of `requests.get` (source line 87). -/
inductive HttpOutcome where
  | transportError (msg : String)
  | response (status : Nat) (body : String)

/-- The line boundaries of Python `str.splitlines()`: LF, VT, FF, CR,
FS, GS, RS, NEL, LINE SEPARATOR and PARAGRAPH SEPARATOR. -/
def ehQuebraDeLinha (c : Char) : Bool :=
  c = '\n' || c = '\x0b' || c = '\x0c' || c = '\r' ||
  c = '\x1c' || c = '\x1d' || c = '\x1e' || c = '\x85' ||
  c = '\u2028' || c = '\u2029'

/-- Python `str.splitlines()`: splits at every `ehQuebraDeLinha` boundary,
with `\r\n` counting as one; keeps interior empty lines, drops the
would-be empty line after a trailing terminator, and returns `[]` on the
empty string. -/
def splitlines : List Char → List String
  | [] => []
  | l => splitlinesGo l []
where
  /-- Walk the characters, accumulating the current line. -/
  splitlinesGo : List Char → List Char → List String
  | [], acc => [String.mk acc]
  | '\r' :: '\n' :: rest, acc =>
      String.mk acc :: (if rest.isEmpty then [] else splitlinesGo rest [])
  | c :: rest, acc =>
      if ehQuebraDeLinha c then
        String.mk acc :: (if rest.isEmpty then [] else splitlinesGo rest [])
      else splitlinesGo rest (acc ++ [c])

/-- Python `str.split(':')`: split on every colon, keeping empty fields
(`"".split(':') == ['']`). -/
def splitColon : List Char → List (List Char)
  | [] => [[]]
  | ':' :: rest => [] :: splitColon rest
  | c :: rest =>
      match splitColon rest with
      | l :: ls => (c :: l) :: ls
      | [] => [[c]]

/-- The whitespace `int(str)` strips: the characters CPython's integer
parser accepts around the number (TAB through CR, SPACE, NEL, NBSP and the
Unicode space separators). -/
def ehEspacoInt (c : Char) : Bool :=
  (decide (9 ≤ c.toNat) && decide (c.toNat ≤ 13)) || c = ' ' || c = '\x85' ||
  c = '\xa0' || c = '\u1680' ||
  (decide (0x2000 ≤ c.toNat) && decide (c.toNat ≤ 0x200a)) ||
  c = '\u2028' || c = '\u2029' || c = '\u202f' || c = '\u205f' || c = '\u3000'

/-- The first codepoint of every run of ten Unicode decimal digits
(category Nd) the CPython runtime knows; a digit's value is its offset in
its run. -/
def tabelaDigitos : List Nat := [
  48, 1632, 1776, 1984, 2406, 2534, 2662, 2790, 2918, 3046, 3174, 3302,
  3430, 3558, 3664, 3792, 3872, 4160, 4240, 6112, 6160, 6470, 6608, 6784,
  6800, 6992, 7088, 7232, 7248, 42528, 43216, 43264, 43472, 43504, 43600, 44016,
  65296, 66720, 68912, 69734, 69872, 69942, 70096, 70384, 70736, 70864, 71248, 71360,
  71472, 71904, 72016, 72784, 73040, 73120, 92768, 92864, 93008, 120782, 120792, 120802,
  120812, 120822, 123200, 123632, 125264, 130032]

/-- The decimal value of `c` when Python `int()` accepts `c` as a digit. -/
def pyDigitVal (c : Char) : Option Nat :=
  match tabelaDigitos.find? (fun s => decide (s ≤ c.toNat) && decide (c.toNat ≤ s + 9)) with
  | some s => some (c.toNat - s)
  | none => none

/-- Python `int(str)` on a decimal string: optional surrounding
whitespace (`ehEspacoInt`), one optional ASCII sign, then Unicode decimal
digits (`pyDigitVal`) with single underscores allowed between digits;
`none` models the `ValueError` that `int()` raises otherwise. -/
def pyInt (l : List Char) : Option Int :=
  match stripPySpaces l with
  | '+' :: rest => (pyIntDigits rest).map Int.ofNat
  | '-' :: rest => (pyIntDigits rest).map (fun n => -(Int.ofNat n))
  | rest => (pyIntDigits rest).map Int.ofNat
where
  /-- Strip leading and trailing whitespace. -/
  stripPySpaces (l : List Char) : List Char :=
    ((l.dropWhile ehEspacoInt).reverse.dropWhile ehEspacoInt).reverse
  /-- Remaining digits after the first, single underscores allowed between
  digits. -/
  pyIntGo : List Char → Nat → Option Nat
  | [], acc => some acc
  | '_' :: c :: rest, acc =>
      match pyDigitVal c with
      | some v => pyIntGo rest (acc * 10 + v)
      | none => none
  | ['_'], _ => none
  | c :: rest, acc =>
      match pyDigitVal c with
      | some v => pyIntGo rest (acc * 10 + v)
      | none => none
  /-- A nonempty digit sequence. -/
  pyIntDigits : List Char → Option Nat
  | [] => none
  | c :: rest =>
      match pyDigitVal c with
      | some v => pyIntGo rest v
      | none => none

/-- The scan of source lines 95-100: lazily split each response line on
`:`, unpack into `(hash_vazado, contagem)` — `ValueError` when the line
does not have exactly two fields — and on the first suffix match return
`(True, int(contagem))`, where a bad count is again a `ValueError`.
Lines after the first match are never examined. -/
def scanPairs (sufixo : List Char) : List String → Except PyErr (Bool × Int)
  | [] => Except.ok (false, 0)
  | linha :: rest =>
      match splitColon linha.data with
      | [hash_vazado, contagem] =>
          if hash_vazado = sufixo then
            match pyInt contagem with
            | some n => Except.ok (true, n)
            | none => Except.error PyErr.valueError
          else scanPairs sufixo rest
      | _ => Except.error PyErr.valueError

/-- Function `verificar_vazamento_pwned` (source lines 74-107), parameterised by the
outcome of the HTTP request: a transport error is caught and yields
`(False, 0)` (source lines 102-104); a non-200 status yields `(False, 0)`
(source lines 89-91); a 200 response is scanned line by line
(source lines 95-107). -/
def verificar_vazamento_pwned (senha : String) (r : HttpOutcome) :
    Except PyErr (Bool × Int) :=
  match r with
  | HttpOutcome.transportError _ => Except.ok (false, 0)
  | HttpOutcome.response status body =>
      if status ≠ 200 then Except.ok (false, 0)
      else scanPairs (sufixo_hash senha) (splitlines body.data)

/-- Parse one response line into a `(suffix, count)` pair; `none` iff the
scan would raise on this line even when it matches. -/
def parseLine (linha : String) : Option (List Char × Int) :=
  match splitColon linha.data with
  | [s, c] => (pyInt c).map (fun n => (s, n))
  | _ => none

/-- All lines of a response body parse as `SUFFIX:COUNT` pairs. -/
def corpoBemFormado (body : String) : Prop :=
  ∀ l ∈ splitlines body.data, (parseLine l).isSome = true

instance (body : String) : Decidable (corpoBemFormado body) := by
  unfold corpoBemFormado; infer_instance

/-- Modelled from the spec: "Scan returned pairs for an exact match on the
computed suffix. Match found → breached=true, occurrenceCount = parsed
integer count. No match after scanning all pairs → breached=false,
count=0." -/
def spec_lookup (suf : List Char) (pairs : List (List Char × Int)) : Bool × Int :=
  match pairs.find? (fun p => decide (p.1 = suf)) with
  | some p => (true, p.2)
  | none => (false, 0)

example : verificar_forca_senha "password" =
    ("Fraca",
     ["Considere usar uma senha com 12 ou mais caracteres.",
      "Inclua pelo menos uma letra maiúscula (A-Z).",
      "Inclua pelo menos um número (0-9).",
      "Inclua pelo menos um caractere especial (ex: !@#$)."]) := by decide

example : pontuacao "password" = 2 := by decide

example : (verificar_forca_senha "Abcdefghij1!").1 = "Forte" := by decide

example : ehEspecial '!' = true ∧ ehEspecial '_' = true ∧ ehEspecial 'é' = false ∧
    ehEspecial 'ç' = false ∧ ehEspecial 'ã' = false := by decide

example : pontuacao "sénhaseg" = 2 ∧ (verificar_forca_senha "sénhaseg").1 = "Fraca" := by decide

example : pontuacao "Coraçãozinho1" = 6 ∧
    (verificar_forca_senha "Coraçãozinho1").1 = "Forte" := by decide

example : splitlines "AB\x0bCD:3".data = ["AB", "CD:3"] := by decide

example : pyInt "\u0661\u0662".data = some 12 := by decide

example : verificar_vazamento_pwned "password" (HttpOutcome.response 200 "AB\x0bCD:3") =
    Except.error PyErr.valueError := rfl


example : splitlines "A:1\r\nB:2\n".data = ["A:1", "B:2"] := by decide

example : splitlines "".data = [] := by decide

example : pyInt "3730471".data = some 3730471 := by decide

example : pyInt " 12_3 ".data = some 123 := by decide

example : pyInt "1x".data = none := by decide

/-- C1: `verificar_forca_senha` accumulates points exactly as stated —
length < 8 gives -5 points, 8 ≤ length < 12 gives +1, length ≥ 12 gives
+3; presence of a lowercase letter gives +1, an uppercase letter +1, a
digit +1, a non-alphanumeric character +2 — and the returned level is the
threshold of the total: < 2 is "Muito Fraca" (VeryWeak), < 4 "Fraca"
(Weak), < 6 "Média" (Medium), otherwise "Forte" (Strong). -/
theorem C1_pontos_e_nivel (senha : String) :
    pontuacao senha =
      (if senha.length < 8 then -5 else if senha.length < 12 then 1 else 3)
      + (if ∃ c ∈ senha.data, ehMinuscula c = true then 1 else 0)
      + (if ∃ c ∈ senha.data, ehMaiuscula c = true then 1 else 0)
      + (if ∃ c ∈ senha.data, ehDigito c = true then 1 else 0)
      + (if ∃ c ∈ senha.data, ehEspecial c = true then 2 else 0)
    ∧ (verificar_forca_senha senha).1 =
      (if pontuacao senha < 2 then "Muito Fraca"
       else if pontuacao senha < 4 then "Fraca"
       else if pontuacao senha < 6 then "Média"
       else "Forte") := by
  constructor
  · simp only [pontuacao, temMinuscula, temMaiuscula, temNumero, temEspecial,
      List.any_eq_true]
  · rfl

/-- C3 counterexample: the digest the code computes for "password" is not
the 39-character string the claim quotes (the quoted digest drops the
final `8` of the published 40-character digest). -/
theorem C3_contraexemplo :
    sha1_senha "password" ≠ "5BAA61E4C9B93F3F0682250B6CF8331B7EE68FD".data := by decide

/-- C3 amended: the uppercase hexadecimal SHA-1 digest the breach check
computes for "password" is the full 40-character published digest
`5BAA61E4C9B93F3F0682250B6CF8331B7EE68FD8`, with prefix `5BAA6` and
35-character suffix `1E4C9B93F3F0682250B6CF8331B7EE68FD8`. -/
theorem C3_digesto_password :
    sha1_senha "password" = "5BAA61E4C9B93F3F0682250B6CF8331B7EE68FD8".data ∧
    prefixo_hash "password" = "5BAA6".data ∧
    sufixo_hash "password" = "1E4C9B93F3F0682250B6CF8331B7EE68FD8".data := by
  exact ⟨by decide, by decide, by decide⟩

/-- C4 counterexample: for input "password" the scorer returns four
suggestions, not three (the claim misses the "use 12+ characters"
suggestion the 8-to-11-length branch appends). -/
theorem C4_contraexemplo : (verificar_forca_senha "password").2.length ≠ 3 := by decide

/-- C4 amended: for input "password" (length 8, lowercase only) the scorer
returns total score 2, level "Fraca" (Weak), and exactly four suggestions:
the 12-plus-length advice, then uppercase, digit and special-character
advice. -/
theorem C4_password_fraca :
    pontuacao "password" = 2 ∧
    verificar_forca_senha "password" =
      ("Fraca",
       ["Considere usar uma senha com 12 ou mais caracteres.",
        "Inclua pelo menos uma letra maiúscula (A-Z).",
        "Inclua pelo menos um número (0-9).",
        "Inclua pelo menos um caractere especial (ex: !@#$)."]) ∧
    (verificar_forca_senha "password").2.length = 4 := by
  exact ⟨by decide, by decide, by decide⟩

/-- C9: the scorer is total and deterministic — it is a pure function, so
equal inputs give equal results, and it always returns one of the four
levels. -/
theorem C9_total_deterministica (senha : String) :
    (∀ outra : String, senha = outra →
        verificar_forca_senha senha = verificar_forca_senha outra) ∧
    (verificar_forca_senha senha).1 ∈
      ["Muito Fraca", "Fraca", "Média", "Forte"] := by
  refine ⟨fun outra h => h ▸ rfl, ?_⟩
  show nivel_senha (pontuacao senha) ∈ _
  unfold nivel_senha
  split_ifs <;> decide

/-- C10: every password of length < 8 scores at most
-5 + 1 + 1 + 1 + 2 = 0 < 2, so the returned level is "Muito Fraca"
(VeryWeak) regardless of which character classes are present. -/
theorem C10_curta_muito_fraca (senha : String) (h : senha.length < 8) :
    pontuacao senha ≤ 0 ∧ (verificar_forca_senha senha).1 = "Muito Fraca" := by
  have hp : pontuacao senha ≤ 0 := by
    unfold pontuacao
    rw [if_pos h]
    split_ifs <;> omega
  refine ⟨hp, ?_⟩
  show nivel_senha (pontuacao senha) = _
  unfold nivel_senha
  rw [if_pos (by omega)]

/-- C10 witness: the four-class password "aB1!" of length 4. -/
theorem C10_curta_muito_fraca_witness :
    pontuacao "aB1!" ≤ 0 ∧ (verificar_forca_senha "aB1!").1 = "Muito Fraca" :=
  C10_curta_muito_fraca "aB1!" (by decide)

/-- C6: every password of length ≥ 12 with at least one lowercase letter,
one uppercase letter, one digit and one non-alphanumeric character scores
3 + 1 + 1 + 1 + 2 = 8 ≥ 8, and the returned level is "Forte" (Strong). -/
theorem C6_fortes (senha : String)
    (hlen : 12 ≤ senha.length)
    (hmin : ∃ c ∈ senha.data, ehMinuscula c = true)
    (hmai : ∃ c ∈ senha.data, ehMaiuscula c = true)
    (hnum : ∃ c ∈ senha.data, ehDigito c = true)
    (hesp : ∃ c ∈ senha.data, ehEspecial c = true) :
    8 ≤ pontuacao senha ∧ (verificar_forca_senha senha).1 = "Forte" := by
  have h1 : temMinuscula senha = true := List.any_eq_true.mpr hmin
  have h2 : temMaiuscula senha = true := List.any_eq_true.mpr hmai
  have h3 : temNumero senha = true := List.any_eq_true.mpr hnum
  have h4 : temEspecial senha = true := List.any_eq_true.mpr hesp
  have hl8 : ¬ senha.length < 8 := by omega
  have hl12 : ¬ senha.length < 12 := by omega
  have hp : pontuacao senha = 8 := by
    simp [pontuacao, h1, h2, h3, h4, hl8, hl12]
  constructor
  · omega
  · show nivel_senha (pontuacao senha) = _
    rw [hp]
    rfl

/-- C6 witness: the password "Abcdefghij1!" of length 12. -/
theorem C6_fortes_witness :
    8 ≤ pontuacao "Abcdefghij1!" ∧ (verificar_forca_senha "Abcdefghij1!").1 = "Forte" :=
  C6_fortes "Abcdefghij1!" (by decide) (by decide) (by decide) (by decide) (by decide)

/-- Helper: every character a word of the digest produces is an uppercase
hexadecimal digit. -/
theorem wordToHex_mem_hex (w : Nat) : ∀ c ∈ wordToHex w, c ∈ "0123456789ABCDEF".data := by
  intro c hc
  simp only [wordToHex, List.mem_map, List.mem_range] at hc
  obtain ⟨i, _, rfl⟩ := hc
  have h16 : (w >>> (4 * (7 - i))) % 16 < 16 := Nat.mod_lt _ (by omega)
  revert h16
  generalize (w >>> (4 * (7 - i))) % 16 = m
  exact fun hm => (by decide : ∀ k < 16, hexDigitUpper k ∈ "0123456789ABCDEF".data) m hm

/-- Helper: each digest word renders as 8 characters. -/
theorem wordToHex_length (w : Nat) : (wordToHex w).length = 8 := by
  simp [wordToHex]

/-- C7: for every password the breach check computes a 40-character
uppercase hexadecimal SHA-1 digest of the UTF-8-encoded password and
splits it into a 5-character prefix and a 35-character suffix whose
concatenation is the full digest. -/
theorem C7_prefixo_mais_sufixo (senha : String) :
    (sha1_senha senha).length = 40 ∧
    (∀ c ∈ sha1_senha senha, c ∈ "0123456789ABCDEF".data) ∧
    (prefixo_hash senha).length = 5 ∧
    (sufixo_hash senha).length = 35 ∧
    prefixo_hash senha ++ sufixo_hash senha = sha1_senha senha := by
  have hlen : (sha1_senha senha).length = 40 := by
    simp [sha1_senha, sha1HexUpper, wordToHex_length]
  refine ⟨hlen, ?_, ?_, ?_, List.take_append_drop 5 _⟩
  · intro c hc
    simp only [sha1_senha, sha1HexUpper, List.mem_append] at hc
    rcases hc with ((((h | h) | h) | h) | h) <;>
      exact wordToHex_mem_hex _ _ h
  · simp [prefixo_hash, hlen]
  · simp [sufixo_hash, hlen]

/-- C8: the suggestion list is exactly the failed checks' messages in the
fixed order the code checks them — the applicable length advice first,
then lowercase, uppercase, digit and special-character advice. -/
theorem C8_ordem_sugestoes (senha : String) :
    (verificar_forca_senha senha).2 =
      (([((decide (senha.length < 8) : Bool),
          "A senha deve ter pelo menos 8 caracteres."),
         ((decide (8 ≤ senha.length) && decide (senha.length < 12) : Bool),
          "Considere usar uma senha com 12 ou mais caracteres."),
         (!temMinuscula senha, "Inclua pelo menos uma letra minúscula (a-z)."),
         (!temMaiuscula senha, "Inclua pelo menos uma letra maiúscula (A-Z)."),
         (!temNumero senha, "Inclua pelo menos um número (0-9)."),
         (!temEspecial senha, "Inclua pelo menos um caractere especial (ex: !@#$).")
        ].filter Prod.fst).map Prod.snd) := by
  show sugestoes senha = _
  rcases Nat.lt_or_ge senha.length 8 with h8 | h8
  · have e1 : decide (senha.length < 8) = true := decide_eq_true h8
    have e2 : decide (8 ≤ senha.length) = false := decide_eq_false (by omega)
    cases hm : temMinuscula senha <;> cases hma : temMaiuscula senha <;>
      cases hn : temNumero senha <;> cases he : temEspecial senha <;>
      simp [sugestoes, h8, hm, hma, hn, he, e1, e2, List.filter_cons]
  · rcases Nat.lt_or_ge senha.length 12 with h12 | h12
    · have hx : ¬ senha.length < 8 := by omega
      have e1 : decide (senha.length < 8) = false := decide_eq_false hx
      have e2 : decide (8 ≤ senha.length) = true := decide_eq_true h8
      have e3 : decide (senha.length < 12) = true := decide_eq_true h12
      cases hm : temMinuscula senha <;> cases hma : temMaiuscula senha <;>
        cases hn : temNumero senha <;> cases he : temEspecial senha <;>
        simp [sugestoes, hx, h12, hm, hma, hn, he, e1, e2, e3, List.filter_cons]
    · have hx : ¬ senha.length < 8 := by omega
      have hy : ¬ senha.length < 12 := by omega
      have e1 : decide (senha.length < 8) = false := decide_eq_false hx
      have e3 : decide (senha.length < 12) = false := decide_eq_false hy
      cases hm : temMinuscula senha <;> cases hma : temMaiuscula senha <;>
        cases hn : temNumero senha <;> cases he : temEspecial senha <;>
        simp [sugestoes, hx, hy, hm, hma, hn, he, e1, e3, List.filter_cons]

/-- Helper: a successfully parsed line splits into exactly its suffix field
and a count field that parses to its count. -/
theorem parseLine_eq_some {linha : String} {s : List Char} {n : Int}
    (h : parseLine linha = some (s, n)) :
    ∃ c, splitColon linha.data = [s, c] ∧ pyInt c = some n := by
  unfold parseLine at h
  split at h
  case h_1 s' c' heq =>
    rw [Option.map_eq_some'] at h
    obtain ⟨n', hn', hpair⟩ := h
    obtain ⟨rfl, rfl⟩ := Prod.mk.injEq .. ▸ hpair
    exact ⟨c', heq, hn'⟩
  case h_2 => exact absurd h (by simp)

/-- Helper: on a body whose lines all parse, the scan of
`verificar_vazamento_pwned` returns exactly what the spec's
first-match lookup over the parsed pairs returns, without raising. -/
theorem scanPairs_eq_spec (suf : List Char) (lines : List String)
    (hwf : ∀ l ∈ lines, (parseLine l).isSome = true) :
    scanPairs suf lines = Except.ok (spec_lookup suf (lines.filterMap parseLine)) := by
  induction lines with
  | nil => rfl
  | cons linha rest ih =>
    have h1 : (parseLine linha).isSome = true := hwf linha (List.mem_cons_self _ _)
    obtain ⟨⟨s, n⟩, hp⟩ := Option.isSome_iff_exists.mp h1
    obtain ⟨c, hsc, hpi⟩ := parseLine_eq_some hp
    have hrest : ∀ l ∈ rest, (parseLine l).isSome = true :=
      fun l hl => hwf l (List.mem_cons_of_mem _ hl)
    by_cases hmatch : s = suf
    · subst hmatch
      simp [scanPairs, hsc, hpi, spec_lookup, List.filterMap_cons, hp, List.find?]
    · simp [scanPairs, hsc, hpi, hmatch, spec_lookup, List.filterMap_cons, hp,
        List.find?, ih hrest]

/-- C5: on a 200 response whose body is newline-separated `SUFFIX:COUNT`
pairs, the breach check returns breached=true with the parsed integer
count of the (first) pair whose suffix exactly equals the computed
suffix, and breached=false with count 0 when no pair matches after
scanning all pairs — the code's scan agrees with the spec's lookup
`spec_lookup` over the parsed pairs. -/
theorem C5_varredura (senha : String) (body : String)
    (hwf : corpoBemFormado body) :
    verificar_vazamento_pwned senha (HttpOutcome.response 200 body) =
      Except.ok (spec_lookup (sufixo_hash senha)
        ((splitlines body.data).filterMap parseLine)) := by
  have h : verificar_vazamento_pwned senha (HttpOutcome.response 200 body) =
      scanPairs (sufixo_hash senha) (splitlines body.data) := by
    simp [verificar_vazamento_pwned]
  rw [h]
  exact scanPairs_eq_spec _ _ hwf

/-- C5 witness: a body holding the matching pair for "password" with count
3730471 yields breached=true and occurrenceCount 3730471. -/
theorem C5_varredura_witness :
    verificar_vazamento_pwned "password"
      (HttpOutcome.response 200 "1E4C9B93F3F0682250B6CF8331B7EE68FD8:3730471") =
      Except.ok (true, 3730471) :=
  (C5_varredura "password" "1E4C9B93F3F0682250B6CF8331B7EE68FD8:3730471"
    (by decide)).trans (by rfl)

/-- C2 counterexample: a 200 response whose single body line has no colon
makes the code raise `ValueError` to its caller (tuple unpacking of
`linha.split(':')` fails and only `requests.RequestException` is caught),
so the check does not return breached=false, count=0 on this behaviour of
the remote lookup. -/
theorem C2_contraexemplo :
    verificar_vazamento_pwned "password" (HttpOutcome.response 200 "semdoispontos") =
      Except.error PyErr.valueError := rfl

/-- C2 amended: the breach check degrades gracefully on any transport
error and on any non-200 status, returning breached=false and count 0
without raising; and on a 200 response whose body lines all parse as
`SUFFIX:COUNT` pairs it returns a result without raising. (A 200 response
with a malformed line can raise `ValueError`; the logged warning is
console output, outside this embedding.) -/
theorem C2_degradacao (senha : String) (r : HttpOutcome) :
    (∀ msg, r = HttpOutcome.transportError msg →
        verificar_vazamento_pwned senha r = Except.ok (false, 0)) ∧
    (∀ status body, r = HttpOutcome.response status body → status ≠ 200 →
        verificar_vazamento_pwned senha r = Except.ok (false, 0)) ∧
    (∀ body, r = HttpOutcome.response 200 body → corpoBemFormado body →
        ∃ res, verificar_vazamento_pwned senha r = Except.ok res) := by
  refine ⟨?_, ?_, ?_⟩
  · rintro msg rfl
    rfl
  · rintro status body rfl hst
    simp [verificar_vazamento_pwned, hst]
  · rintro body rfl hwf
    exact ⟨_, C5_varredura senha body hwf⟩
